import Mathlib

/-!
Shallow embedding of the recommendation service of the Image-Tunes repository
(`server/services/recommendationService.js`, together with the Mongoose
`Product`/`User` document model it operates on).  JS numbers are modelled over
`ℚ`, Mongo object ids as `String`, dates as `ℕ` timestamps, and a document
field that may be absent (`undefined`) as an `Option`.
-/

/-- A product document (`productSchema`).  `id` is the Mongo `_id` rendered as
a string (`_id.toString()`); fields the recommendation logic never reads
(description, features, imageUrl, createdAt) are omitted.  `tags` is optional
so that a document without a `tags` array (falsy in the JS truthiness test on
the tags block) is representable. -/
structure Product where
  id : String
  name : String
  category : String
  price : ℚ
  tags : Option (List String)
  rating : ℚ
  reviewCount : ℕ
  deriving DecidableEq

/-- The `preferences.priceRange` sub-document; Mongoose supplies `min`/`max`
defaults whenever the sub-document exists. -/
structure PriceRange where
  min : ℚ
  max : ℚ
  deriving DecidableEq

/-- The `preferences` sub-document of a user.  Each sub-field may be absent,
matching the truthiness guards in `calculateSimilarityScore`. -/
structure Preferences where
  categories : Option (List String)
  priceRange : Option PriceRange
  tags : Option (List String)
  deriving DecidableEq

/-- A `viewHistory` entry: `{productId, viewedAt}`. -/
structure ViewEntry where
  productId : String
  viewedAt : ℕ
  deriving DecidableEq

/-- A `purchases` entry: `{productId, purchasedAt}`. -/
structure PurchaseEntry where
  productId : String
  purchasedAt : ℕ
  deriving DecidableEq

/-- A user document (`userSchema`); the password field plays no role in the
recommendation logic but is kept for the frame-effect statements. -/
structure UserDoc where
  id : String
  name : String
  email : String
  password : String
  preferences : Option Preferences
  viewHistory : List ViewEntry
  purchases : List PurchaseEntry
  deriving DecidableEq

/-- The document store: the `products` and `users` collections, in natural
(insertion) order — Mongo queries without an explicit sort return documents in
a deterministic store order, modelled as this list order. -/
structure DB where
  products : List Product
  users : List UserDoc
  deriving DecidableEq

/-- Category block of `calculateSimilarityScore`: the pair of contributions
`(score, maxScore)` added when `userPreferences.categories` is present and
non-empty, with full weight 0.4 on membership of `product.category`. -/
def categoryComponent (userPreferences : Preferences) (product : Product) : ℚ × ℚ :=
  match userPreferences.categories with
  | some cats =>
      if cats.length > 0 then
        ((if cats.contains product.category then (0.4 : ℚ) else 0), (0.4 : ℚ))
      else (0, 0)
  | none => (0, 0)

/-- Price-range block of `calculateSimilarityScore`: weight 0.3 when
`product.price` lies in `[min, max]` inclusive, applicable whenever the
`priceRange` sub-document is present (truthy). -/
def priceComponent (userPreferences : Preferences) (product : Product) : ℚ × ℚ :=
  match userPreferences.priceRange with
  | some range =>
      ((if range.min ≤ product.price ∧ product.price ≤ range.max then (0.3 : ℚ) else 0),
       (0.3 : ℚ))
  | none => (0, 0)

/-- Tags block of `calculateSimilarityScore`: applicable when the user tag
list is present and non-empty and the product has a `tags` field.
`matchingTags = product.tags.filter(tag => userPreferences.tags.includes(tag))`
counts entries of `product.tags` (with multiplicity) that occur among the
user tags; the credit is `matchingTags.length / max(|prefTags|, 1) * 0.3`. -/
def tagComponent (userPreferences : Preferences) (product : Product) : ℚ × ℚ :=
  match userPreferences.tags, product.tags with
  | some prefTags, some prodTags =>
      if prefTags.length > 0 then
        ((((prodTags.filter (fun tag => prefTags.contains tag)).length : ℚ)
            / ((Nat.max prefTags.length 1 : ℕ) : ℚ)) * 0.3, (0.3 : ℚ))
      else (0, 0)
  | _, _ => (0, 0)

/-- The `calculateSimilarityScore(userPreferences, product)`: accumulate the three
independent weighted blocks into `score` and `maxScore`, then normalize:
`maxScore > 0 ? score / maxScore : 0`. -/
def calculateSimilarityScore (userPreferences : Preferences) (product : Product) : ℚ :=
  let score := (categoryComponent userPreferences product).1 +
    (priceComponent userPreferences product).1 + (tagComponent userPreferences product).1
  let maxScore := (categoryComponent userPreferences product).2 +
    (priceComponent userPreferences product).2 + (tagComponent userPreferences product).2
  if maxScore > 0 then score / maxScore else 0

/-- The `calculateSimilarityScore` as called from JS when the whole preferences
argument may be absent (`undefined`): the very first property access
`userPreferences.categories` then throws a `TypeError`, modelled as
`Except.error`; with an actual object the pure score is returned. -/
def calculateSimilarityScoreJS (userPreferences : Option Preferences) (product : Product) :
    Except String ℚ :=
  match userPreferences with
  | none => Except.error "TypeError: cannot read properties of undefined"
  | some prefs => Except.ok (calculateSimilarityScore prefs product)

/-- The tag credit exactly as the spec words it: cardinality of the *set*
intersection `product.tags ∩ preferences.tags`, over `max(|preferences.tags|, 1)`,
times the weight 0.3.  Stated from the spec for comparison with `tagComponent`. -/
def specTagCredit (prefTags prodTags : List String) : ℚ :=
  (((prodTags.toFinset ∩ prefTags.toFinset).card : ℚ)
      / ((Nat.max prefTags.length 1 : ℕ) : ℚ)) * 0.3

/-- The `userProductIds`: the ids of everything the user has viewed or purchased
(viewHistory first, then purchases), computed identically in the collaborative
and the content-based generator. -/
def userProductIdsOf (user : UserDoc) : List String :=
  user.viewHistory.map (fun item => item.productId) ++
    user.purchases.map (fun item => item.productId)

/-- The `User.findById(userId)`: first user document whose `_id` matches. -/
def findUserById (db : DB) (userId : String) : Option UserDoc :=
  db.users.find? (fun u => u.id == userId)

/-- The `User.find({_id: {$ne: userId}, $or: [...]}).limit(10)` query of the
collaborative generator: up to 10 other users whose view or purchase history
meets the current user product-id set. -/
def similarUsersOf (db : DB) (userId : String) (userProductIds : List String) :
    List UserDoc :=
  (db.users.filter (fun u =>
    (u.id != userId) &&
      (u.viewHistory.any (fun item => userProductIds.contains item.productId) ||
       u.purchases.any (fun item => userProductIds.contains item.productId)))).take 10

/-- One insertion into the `similarUserProductIds` Set of the collaborative
generator: append the id (insertion order, duplicates collapsed) unless the
current user already interacted with it. -/
def addCandidate (userProductIds : List String) (acc : List String) (productId : String) :
    List String :=
  if !(userProductIds.contains productId) && !(acc.contains productId) then
    acc ++ [productId]
  else acc

/-- The `similarUserProductIds` Set accumulated by the collaborative
generator: walk the similar users in order and `addCandidate` every id they
viewed or purchased. -/
def similarUserProductIdsOf (similarUsers : List UserDoc) (userProductIds : List String) :
    List String :=
  similarUsers.foldl (fun acc su =>
    (su.viewHistory.map (fun item => item.productId) ++
        su.purchases.map (fun item => item.productId)).foldl
      (addCandidate userProductIds) acc) []

/-- The `Product.find({_id: {$in: ids}}).limit(limit)`: products whose id is in the
candidate set, in store order, at most `limit` of them. -/
def productsInIds (db : DB) (ids : List String) (limit : ℕ) : List Product :=
  (db.products.filter (fun p => ids.contains p.id)).take limit

/-- The `getCollaborativeRecommendations(userId, limit)` (successful-store run; the
try/catch wrapper is modelled separately with fault injection). -/
def getCollaborativeRecommendations (db : DB) (userId : String) (limit : ℕ) :
    List Product :=
  match findUserById db userId with
  | none => []
  | some user =>
      let userProductIds := userProductIdsOf user
      let similarUsers := similarUsersOf db userId userProductIds
      productsInIds db (similarUserProductIdsOf similarUsers userProductIds) limit

/-- The `Product.find({_id: {$nin: ids}})`: all products the user has not already
interacted with, in store order. -/
def productsNotInIds (db : DB) (ids : List String) : List Product :=
  db.products.filter (fun p => !(ids.contains p.id))

/-- The `getContentBasedRecommendations(userId, limit)` (successful-store run):
score every not-yet-interacted product against the user preferences, sort by
score descending (stable), take the top `limit`. -/
def getContentBasedRecommendations (db : DB) (userId : String) (limit : ℕ) :
    List Product :=
  match findUserById db userId with
  | none => []
  | some user =>
      match user.preferences with
      | none => []
      | some prefs =>
          let userProductIds := userProductIdsOf user
          let allProducts := productsNotInIds db userProductIds
          let scoredProducts := allProducts.map (fun p => (p, calculateSimilarityScore prefs p))
          (((scoredProducts.mergeSort (fun a b => decide (b.2 ≤ a.2))).take limit).map
            (fun item => item.1))

/-- The `getTrendingProducts(limit)` (successful-store run): all products sorted by
`reviewCount` descending then `rating` descending (store-side stable sort),
limited to `limit`. -/
def getTrendingProducts (db : DB) (limit : ℕ) : List Product :=
  ((db.products.mergeSort (fun a b =>
    (decide (b.reviewCount < a.reviewCount)) ||
      ((b.reviewCount == a.reviewCount) && decide (b.rating ≤ a.rating)))).take limit)

/-- The merge state of `getRecommendations`: the `seenIds` Set and the
`combinedRecommendations` array. -/
structure MergeState where
  seenIds : List String
  combined : List Product
  deriving DecidableEq

/-- One step of the collaborative / content-based merge passes: push the
product unless its id was already seen. -/
def addUnseen (st : MergeState) (product : Product) : MergeState :=
  if st.seenIds.contains product.id then st
  else ⟨product.id :: st.seenIds, st.combined ++ [product]⟩

/-- One step of the trending merge pass: push the product only if its id is
unseen *and* the combined list is still shorter than `limit`. -/
def addUnseenLimited (limit : ℕ) (st : MergeState) (product : Product) : MergeState :=
  if !(st.seenIds.contains product.id) && st.combined.length < limit then
    ⟨product.id :: st.seenIds, st.combined ++ [product]⟩
  else st

/-- The three merge passes of `getRecommendations`, in source order:
collaborative (highest priority), then content-based, then trending (the last
bounded by `limit`). -/
def mergeStrategies (collaborative contentBased trending : List Product) (limit : ℕ) :
    List Product :=
  let st1 := collaborative.foldl addUnseen ⟨[], []⟩
  let st2 := contentBased.foldl addUnseen st1
  let st3 := trending.foldl (addUnseenLimited limit) st2
  st3.combined

/-- The object returned by `getRecommendations`: `recommendations` and
`trending` are always present; `contentBased` and `collaborative` are absent
(`none`) in the anonymous branch. -/
structure RecResult where
  recommendations : List Product
  contentBased : Option (List Product)
  collaborative : Option (List Product)
  trending : List Product
  deriving DecidableEq

/-- The `getRecommendations(userId, limit)` (successful-store run).  Anonymous
callers (`!userId`) get trending only; logged-in users get the three
strategies with sub-limits `limit/2`, `limit/2`, `limit/3` (Math.floor on a
non-negative integer = Nat division), merged by `mergeStrategies` and
truncated to `limit`. -/
def getRecommendations (db : DB) (userId : Option String) (limit : ℕ) : RecResult :=
  match userId with
  | none =>
      let trending := getTrendingProducts db limit
      ⟨trending, none, none, trending⟩
  | some uid =>
      let contentBased := getContentBasedRecommendations db uid (limit / 2)
      let collaborative := getCollaborativeRecommendations db uid (limit / 2)
      let trending := getTrendingProducts db (limit / 3)
      ⟨(mergeStrategies collaborative contentBased trending limit).take limit,
       some contentBased, some collaborative, trending⟩

/-- Append-one-view update of `recordProductView` applied to the matched user
document (`$push: {viewHistory: {productId, viewedAt: new Date()}}`). -/
def pushView (productId : String) (now : ℕ) (u : UserDoc) : UserDoc :=
  { u with viewHistory := u.viewHistory ++ [⟨productId, now⟩] }

/-- Append-one-purchase update of `recordProductPurchase`
(`$push: {purchases: {productId, purchasedAt: new Date()}}`). -/
def pushPurchase (productId : String) (now : ℕ) (u : UserDoc) : UserDoc :=
  { u with purchases := u.purchases ++ [⟨productId, now⟩] }

/-- The `User.findByIdAndUpdate(userId, update)`: rewrite the first user document
whose id matches, leave everything else in place (no-op when no user
matches). -/
def updateUserById (users : List UserDoc) (userId : String) (f : UserDoc → UserDoc) :
    List UserDoc :=
  match users with
  | [] => []
  | u :: rest =>
      if u.id == userId then f u :: rest
      else u :: updateUserById rest userId f

/-- The `recordProductView(userId, productId)` (successful-store run); `now` is the
timestamp `new Date()` taken inside the call. -/
def recordProductView (db : DB) (userId productId : String) (now : ℕ) : DB :=
  { db with users := updateUserById db.users userId (pushView productId now) }

/-- The `recordProductPurchase(userId, productId)` (successful-store run). -/
def recordProductPurchase (db : DB) (userId productId : String) (now : ℕ) : DB :=
  { db with users := updateUserById db.users userId (pushPurchase productId now) }

/-- Fault model for a single run: which awaited store operations reject.
`blendUnexpected` stands for an arbitrary unexpected exception raised inside
the body of `getRecommendations` itself — the situation its outer catch-all
guards against. -/
structure StoreFaults where
  userFindById : Bool
  userFindSimilar : Bool
  productFindIn : Bool
  productFindNin : Bool
  productFindSorted : Bool
  blendUnexpected : Bool
  deriving DecidableEq

/-- The fault-free run. -/
def noFaults : StoreFaults := ⟨false, false, false, false, false, false⟩

/-- The `try` body of `getCollaborativeRecommendations`: each awaited store
query may reject, and a rejection aborts the body with that error (the early
`return []` on a missing user is a normal, non-error exit). -/
def collaborativeTry (faults : StoreFaults) (db : DB) (userId : String) (limit : ℕ) :
    Except String (List Product) :=
  if faults.userFindById then Except.error "store error"
  else
    match findUserById db userId with
    | none => Except.ok []
    | some user =>
        let userProductIds := userProductIdsOf user
        if faults.userFindSimilar then Except.error "store error"
        else
          let similarUsers := similarUsersOf db userId userProductIds
          if faults.productFindIn then Except.error "store error"
          else
            Except.ok (productsInIds db
              (similarUserProductIdsOf similarUsers userProductIds) limit)

/-- The `getCollaborativeRecommendations` with its catch clause: a store failure is
logged and converted to the empty list, never rethrown. -/
def getCollaborativeRecommendationsE (faults : StoreFaults) (db : DB) (userId : String)
    (limit : ℕ) : List Product :=
  match collaborativeTry faults db userId limit with
  | Except.ok l => l
  | Except.error _ => []

/-- The `try` body of `getContentBasedRecommendations`. -/
def contentBasedTry (faults : StoreFaults) (db : DB) (userId : String) (limit : ℕ) :
    Except String (List Product) :=
  if faults.userFindById then Except.error "store error"
  else
    match findUserById db userId with
    | none => Except.ok []
    | some user =>
        match user.preferences with
        | none => Except.ok []
        | some prefs =>
            let userProductIds := userProductIdsOf user
            if faults.productFindNin then Except.error "store error"
            else
              let allProducts := productsNotInIds db userProductIds
              let scoredProducts :=
                allProducts.map (fun p => (p, calculateSimilarityScore prefs p))
              Except.ok (((scoredProducts.mergeSort
                (fun a b => decide (b.2 ≤ a.2))).take limit).map (fun item => item.1))

/-- The `getContentBasedRecommendations` with its catch clause. -/
def getContentBasedRecommendationsE (faults : StoreFaults) (db : DB) (userId : String)
    (limit : ℕ) : List Product :=
  match contentBasedTry faults db userId limit with
  | Except.ok l => l
  | Except.error _ => []

/-- The `try` body of `getTrendingProducts`. -/
def trendingTry (faults : StoreFaults) (db : DB) (limit : ℕ) :
    Except String (List Product) :=
  if faults.productFindSorted then Except.error "store error"
  else Except.ok (getTrendingProducts db limit)

/-- The `getTrendingProducts` with its catch clause. -/
def getTrendingProductsE (faults : StoreFaults) (db : DB) (limit : ℕ) : List Product :=
  match trendingTry faults db limit with
  | Except.ok l => l
  | Except.error _ => []

/-- The `try` body of `getRecommendations`: calls the already-caught generator
wrappers (which cannot reject), so the only remaining failure is an unexpected
exception in the blend itself. -/
def recommendationsTry (faults : StoreFaults) (db : DB) (userId : Option String)
    (limit : ℕ) : Except String RecResult :=
  if faults.blendUnexpected then Except.error "unexpected error in blend"
  else
    match userId with
    | none =>
        let trending := getTrendingProductsE faults db limit
        Except.ok ⟨trending, none, none, trending⟩
    | some uid =>
        let contentBased := getContentBasedRecommendationsE faults db uid (limit / 2)
        let collaborative := getCollaborativeRecommendationsE faults db uid (limit / 2)
        let trending := getTrendingProductsE faults db (limit / 3)
        Except.ok ⟨(mergeStrategies collaborative contentBased trending limit).take limit,
          some contentBased, some collaborative, trending⟩

/-- The `getRecommendations` with its outer catch clause: any error inside the
blend is logged and converted to the all-empty response shape. -/
def getRecommendationsE (faults : StoreFaults) (db : DB) (userId : Option String)
    (limit : ℕ) : RecResult :=
  match recommendationsTry faults db userId limit with
  | Except.ok r => r
  | Except.error _ => ⟨[], some [], some [], []⟩

/-- Fixture: a product whose `tags` array repeats an entry. -/
def exProductDupTags : Product := ⟨"p1", "n", "c", 0, some ["a", "a"], 0, 0⟩

/-- Fixture: a product with the two distinct tags `a`, `b`. -/
def exProductAB : Product := ⟨"p1", "n", "c", 0, some ["a", "b"], 0, 0⟩

/-- Fixture: preferences whose only applicable field is the tag list `[a]`. -/
def exPrefsTagA : Preferences := ⟨none, none, some ["a"]⟩

/-- Fixture: preferences whose only applicable field is the tag list `[a,b,c]`. -/
def exPrefsTagsABC : Preferences := ⟨none, none, some ["a", "b", "c"]⟩

/-- Fixture: a preferences object with every sub-field absent. -/
def exPrefsEmpty : Preferences := ⟨none, none, none⟩

/-- Fixture products with pairwise distinct ids, for the merge example. -/
def wP1 : Product := ⟨"1", "P1", "cat", 1, none, 0, 0⟩

/-- Fixture product 2. -/
def wP2 : Product := ⟨"2", "P2", "cat", 1, none, 0, 0⟩

/-- Fixture product 3. -/
def wP3 : Product := ⟨"3", "P3", "cat", 1, none, 0, 0⟩

/-- Fixture product 4. -/
def wP4 : Product := ⟨"4", "P4", "cat", 1, none, 0, 0⟩

/-- Fixture user who has viewed product `"1"` and purchased nothing. -/
def wUser : UserDoc := ⟨"u1", "U", "u@example.com", "pw", some exPrefsEmpty, [⟨"1", 0⟩], []⟩

/-- Fixture store holding two products and the one user. -/
def wDB : DB := ⟨[wP1, wP2], [wUser]⟩

lemma length_filter_contains_le (l r : List String) (hl : l.Nodup) :
    (l.filter (fun t => r.contains t)).length ≤ r.length := by
  have hnd : (l.filter (fun t => r.contains t)).Nodup := hl.filter _
  have hsub : l.filter (fun t => r.contains t) ⊆ r := by
    intro x hx
    have hx2 := (List.mem_filter.mp hx).2
    simpa using hx2
  exact (List.subperm_of_subset hnd hsub).length_le

lemma categoryComponent_bounds (userPreferences : Preferences) (product : Product) :
    0 ≤ (categoryComponent userPreferences product).1 ∧
      (categoryComponent userPreferences product).1 ≤
        (categoryComponent userPreferences product).2 := by
  rcases hc : userPreferences.categories with _ | cats
  · simp [categoryComponent, hc]
  · by_cases hmem : product.category ∈ cats <;>
      by_cases hlen : cats.length > 0 <;>
      simp [categoryComponent, hc, hmem, hlen] <;> norm_num

lemma priceComponent_bounds (userPreferences : Preferences) (product : Product) :
    0 ≤ (priceComponent userPreferences product).1 ∧
      (priceComponent userPreferences product).1 ≤
        (priceComponent userPreferences product).2 := by
  rcases hr : userPreferences.priceRange with _ | range
  · simp [priceComponent, hr]
  · by_cases hin : range.min ≤ product.price ∧ product.price ≤ range.max <;>
      simp [priceComponent, hr, hin] <;> norm_num

lemma tagComponent_bounds (userPreferences : Preferences) (product : Product)
    (h : (product.tags.getD []).Nodup) :
    0 ≤ (tagComponent userPreferences product).1 ∧
      (tagComponent userPreferences product).1 ≤ (tagComponent userPreferences product).2 := by
  rcases hp : userPreferences.tags with _ | prefTags
  · simp [tagComponent, hp]
  · rcases hq : product.tags with _ | prodTags
    · simp [tagComponent, hp, hq]
    · rw [hq] at h
      simp only [Option.getD_some] at h
      by_cases hlen : prefTags.length > 0
      · have hm : ((prodTags.filter (fun tag => prefTags.contains tag)).length : ℚ) ≤
            (prefTags.length : ℚ) := by
          exact_mod_cast length_filter_contains_le prodTags prefTags h
        have hnpos : (0 : ℚ) < ((Nat.max prefTags.length 1 : ℕ) : ℚ) := by
          exact_mod_cast Nat.lt_of_lt_of_le Nat.zero_lt_one (Nat.le_max_right prefTags.length 1)
        have hml : ((prefTags.length : ℕ) : ℚ) ≤ ((Nat.max prefTags.length 1 : ℕ) : ℚ) := by
          exact_mod_cast Nat.le_max_left prefTags.length 1
        have hx0 : 0 ≤ ((prodTags.filter (fun tag => prefTags.contains tag)).length : ℚ) /
            ((Nat.max prefTags.length 1 : ℕ) : ℚ) := by positivity
        have hx1 : ((prodTags.filter (fun tag => prefTags.contains tag)).length : ℚ) /
            ((Nat.max prefTags.length 1 : ℕ) : ℚ) ≤ 1 :=
          (div_le_one hnpos).mpr (le_trans hm hml)
        constructor
        · simp only [tagComponent, hp, hq, hlen, if_pos]
          positivity
        · simp only [tagComponent, hp, hq, hlen, if_pos]
          nlinarith
      · simp [tagComponent, hp, hq, hlen]

/-- C1: the similarity score lies in `[0, 1]`, provided the product tag
list has no duplicate entries (the claim "including duplicates" part fails,
see the counterexample below): each block contributes at most its weight to
`score` and exactly its weight to `maxScore`, and the final value is either
`score / maxScore` with `0 ≤ score ≤ maxScore`, or `0`. -/
theorem calculateSimilarityScore_in_unit_interval (userPreferences : Preferences)
    (product : Product) (h : (product.tags.getD []).Nodup) :
    0 ≤ calculateSimilarityScore userPreferences product ∧
      calculateSimilarityScore userPreferences product ≤ 1 := by
  obtain ⟨hc0, hc1⟩ := categoryComponent_bounds userPreferences product
  obtain ⟨hp0, hp1⟩ := priceComponent_bounds userPreferences product
  obtain ⟨ht0, ht1⟩ := tagComponent_bounds userPreferences product h
  unfold calculateSimilarityScore
  simp only [gt_iff_lt]
  split
  · next hm =>
      constructor
      · exact div_nonneg (by linarith) (le_of_lt hm)
      · exact (div_le_one hm).mpr (by linarith)
  · norm_num

/-- Witness for C1 at a concrete duplicate-free product. -/
theorem calculateSimilarityScore_in_unit_interval_witness :
    (exProductAB.tags.getD []).Nodup ∧
      (0 ≤ calculateSimilarityScore exPrefsTagA exProductAB ∧
        calculateSimilarityScore exPrefsTagA exProductAB ≤ 1) :=
  ⟨by decide, calculateSimilarityScore_in_unit_interval exPrefsTagA exProductAB (by decide)⟩

/-- Counterexample to C1 as frozen: with preferences tags `[a]` and product
tags `[a, a]`, the duplicate is counted twice, `score = 0.6 > maxScore = 0.3`,
and the "normalized" result is `2`, outside `[0, 1]`. -/
theorem calculateSimilarityScore_gt_one_on_duplicate_tags :
    1 < calculateSimilarityScore exPrefsTagA exProductDupTags := by
  norm_num [calculateSimilarityScore, categoryComponent, priceComponent, tagComponent,
    exPrefsTagA, exProductDupTags]

lemma length_filter_contains_eq_card_inter (l r : List String) (h : l.Nodup) :
    (l.filter (fun t => r.contains t)).length = (l.toFinset ∩ r.toFinset).card := by
  have hnd : (l.filter (fun t => r.contains t)).Nodup := h.filter _
  rw [← List.toFinset_card_of_nodup hnd, List.toFinset_filter]
  have heq : Finset.filter (fun x => (r.contains x) = true) l.toFinset =
      Finset.filter (fun x => x ∈ r.toFinset) l.toFinset :=
    Finset.filter_congr (fun x _ => by simp)
  rw [heq, Finset.filter_mem_eq_inter]

/-- C3 (amended): when the product tag list is duplicate-free, the tag
component equals the spec set-intersection formula
`|product.tags ∩ preferences.tags| / max(|preferences.tags|, 1) × 0.3`, and in
particular preferences `[a,b,c]` against product `[a,b]` yield `0.2`.  On a
product tag list with duplicates the code counts multiplicity and the
set-intersection reading fails (see the counterexample). -/
theorem tagComponent_eq_specTagCredit (userPreferences : Preferences) (product : Product)
    (prefTags prodTags : List String)
    (hpref : userPreferences.tags = some prefTags) (hne : prefTags ≠ [])
    (hprod : product.tags = some prodTags) (hnd : prodTags.Nodup) :
    (tagComponent userPreferences product).1 = specTagCredit prefTags prodTags ∧
      (tagComponent exPrefsTagsABC exProductAB).1 = 0.2 := by
  constructor
  · have hlen : prefTags.length > 0 := List.length_pos.mpr hne
    simp only [tagComponent, hpref, hprod]
    rw [if_pos hlen]
    simp only [specTagCredit]
    rw [length_filter_contains_eq_card_inter prodTags prefTags hnd]
  · norm_num [tagComponent, exPrefsTagsABC, exProductAB]

/-- Witness for C3 at the spec own example. -/
theorem tagComponent_eq_specTagCredit_witness :
    (exPrefsTagsABC.tags = some ["a", "b", "c"] ∧ (["a", "b", "c"] : List String) ≠ [] ∧
      exProductAB.tags = some ["a", "b"] ∧ (["a", "b"] : List String).Nodup) ∧
      ((tagComponent exPrefsTagsABC exProductAB).1 = specTagCredit ["a", "b", "c"] ["a", "b"] ∧
        (tagComponent exPrefsTagsABC exProductAB).1 = 0.2) :=
  ⟨⟨rfl, by decide, rfl, by decide⟩,
    tagComponent_eq_specTagCredit exPrefsTagsABC exProductAB (["a", "b", "c"])
      (["a", "b"]) rfl (by decide) rfl (by decide)⟩

/-- Counterexample to C3 as frozen: preferences tags `[a,b,c]` against product
tags `[a,a]` — the code filter counts the duplicated `a` twice and yields
`(2/3)·0.3 = 0.2`, while the set-intersection formula of the claim yields
`(1/3)·0.3 = 0.1`. -/
theorem tagComponent_ne_specTagCredit_on_duplicates :
    (tagComponent exPrefsTagsABC exProductDupTags).1 = 0.2 ∧
      specTagCredit ["a", "b", "c"] ["a", "a"] = 0.1 ∧
      (tagComponent exPrefsTagsABC exProductDupTags).1 ≠
        specTagCredit ["a", "b", "c"] ["a", "a"] := by
  have h1 : (tagComponent exPrefsTagsABC exProductDupTags).1 = 0.2 := by
    norm_num [tagComponent, exPrefsTagsABC, exProductDupTags]
  have h2 : specTagCredit ["a", "b", "c"] ["a", "a"] = 0.1 := by
    unfold specTagCredit
    have h : (["a", "a"].toFinset ∩ ["a", "b", "c"].toFinset).card = 1 := by decide
    rw [h]
    norm_num
  refine ⟨h1, h2, ?_⟩
  rw [h1, h2]
  norm_num

/-- C4 (amended): with a preferences *object* present but carrying no
applicable sub-field (categories absent or empty, priceRange absent, tags
absent or empty — or the product itself without a tags array), `maxScore`
stays `0` and the function returns `0` rather than `undefined`.  The claim
"absent entirely" case instead throws, see the counterexample. -/
theorem calculateSimilarityScore_empty_preferences (userPreferences : Preferences)
    (product : Product)
    (hcats : userPreferences.categories = none ∨ userPreferences.categories = some [])
    (hrange : userPreferences.priceRange = none)
    (htags : userPreferences.tags = none ∨ userPreferences.tags = some [] ∨
      product.tags = none) :
    calculateSimilarityScoreJS (some userPreferences) product = Except.ok 0 := by
  have hcat : categoryComponent userPreferences product = (0, 0) := by
    rcases hcats with h | h <;> simp [categoryComponent, h]
  have hpr : priceComponent userPreferences product = (0, 0) := by
    simp [priceComponent, hrange]
  have htag : tagComponent userPreferences product = (0, 0) := by
    rcases htags with h | h | h
    · rcases hpt : product.tags with _ | l2 <;> simp [tagComponent, h, hpt]
    · rcases hpt : product.tags with _ | l2 <;> simp [tagComponent, h, hpt]
    · rcases hups : userPreferences.tags with _ | l <;> simp [tagComponent, hups, h]
  simp [calculateSimilarityScoreJS, calculateSimilarityScore, hcat, hpr, htag]

/-- Witness for C4 at the all-absent preferences object. -/
theorem calculateSimilarityScore_empty_preferences_witness :
    ((exPrefsEmpty.categories = none ∨ exPrefsEmpty.categories = some []) ∧
      exPrefsEmpty.priceRange = none ∧
      (exPrefsEmpty.tags = none ∨ exPrefsEmpty.tags = some [] ∨ exProductAB.tags = none)) ∧
      calculateSimilarityScoreJS (some exPrefsEmpty) exProductAB = Except.ok 0 :=
  ⟨⟨Or.inl rfl, rfl, Or.inl rfl⟩,
    calculateSimilarityScore_empty_preferences exPrefsEmpty exProductAB
      (Or.inl rfl) rfl (Or.inl rfl)⟩

/-- Counterexample to C4 "or absent entirely" part: called with the whole
preferences argument missing (`undefined`), the first property access throws a
`TypeError` — the call does not return `0`. -/
theorem calculateSimilarityScoreJS_throws_on_absent_preferences :
    calculateSimilarityScoreJS none exProductAB =
        Except.error "TypeError: cannot read properties of undefined" ∧
      calculateSimilarityScoreJS none exProductAB ≠ Except.ok 0 :=
  ⟨rfl, by simp [calculateSimilarityScoreJS]⟩

lemma foldl_addUnseenLimited_length (trending : List Product) (limit : ℕ) (st : MergeState) :
    ((trending.foldl (addUnseenLimited limit) st).combined).length ≤
      max st.combined.length limit := by
  induction trending generalizing st with
  | nil => simp
  | cons p rest ih =>
      simp only [List.foldl_cons]
      refine le_trans (ih (addUnseenLimited limit st p)) ?_
      unfold addUnseenLimited
      split
      · next h =>
          have hlt : st.combined.length < limit := by
            have h2 := (Bool.and_eq_true _ _).mp h
            simpa using h2.2
          simp only [List.length_append, List.length_cons, List.length_nil]
          omega
      · exact le_refl _

/-- C2: with a userId, the blender `recommendations` is exactly the
three-pass merge (collaborative first, then content-based, then trending,
first-seen-wins on product ids) truncated to `limit`; the trending pass alone
is bounded by `limit` (it never grows the combined list past `limit`); and the
spec example instance holds for any four products with pairwise distinct
ids. -/
theorem getRecommendations_merge_priority :
    (∀ (db : DB) (uid : String) (limit : ℕ),
        (getRecommendations db (some uid) limit).recommendations =
          (mergeStrategies (getCollaborativeRecommendations db uid (limit / 2))
            (getContentBasedRecommendations db uid (limit / 2))
            (getTrendingProducts db (limit / 3)) limit).take limit) ∧
    (∀ (collaborative contentBased trending : List Product) (limit : ℕ),
        (mergeStrategies collaborative contentBased trending limit).length ≤
          max ((contentBased.foldl addUnseen
            (collaborative.foldl addUnseen ⟨[], []⟩)).combined).length limit) ∧
    (∀ p1 p2 p3 p4 : Product, p1.id ≠ p2.id → p1.id ≠ p3.id → p1.id ≠ p4.id →
        p2.id ≠ p3.id → p2.id ≠ p4.id → p3.id ≠ p4.id →
        mergeStrategies [p1, p2] [p2, p3] [p3, p4] 3 = [p1, p2, p3]) := by
  refine ⟨fun db uid limit => rfl,
    fun c cb t limit => foldl_addUnseenLimited_length t limit _, ?_⟩
  intro p1 p2 p3 p4 h12 h13 h14 h23 h24 h34
  simp [mergeStrategies, addUnseen, addUnseenLimited, beq_iff_eq,
    Ne.symm h12, Ne.symm h13, Ne.symm h14, Ne.symm h23, Ne.symm h24, Ne.symm h34]

/-- Witness for C2 example instance with four concrete products. -/
theorem getRecommendations_merge_priority_witness :
    mergeStrategies [wP1, wP2] [wP2, wP3] [wP3, wP4] 3 = [wP1, wP2, wP3] :=
  getRecommendations_merge_priority.2.2 wP1 wP2 wP3 wP4 (by decide) (by decide)
    (by decide) (by decide) (by decide) (by decide)

/-- The invariant maintained by the merge loop: the combined ids are pairwise
distinct and every one of them is registered in `seenIds`. -/
def MergeInv (st : MergeState) : Prop :=
  (st.combined.map Product.id).Nodup ∧ ∀ x ∈ st.combined.map Product.id, x ∈ st.seenIds

lemma push_inv (st : MergeState) (p : Product) (h : MergeInv st)
    (hpid : p.id ∉ st.seenIds) :
    MergeInv ⟨p.id :: st.seenIds, st.combined ++ [p]⟩ := by
  obtain ⟨hnd, hsub⟩ := h
  constructor
  · simp only [List.map_append, List.map_cons, List.map_nil]
    rw [List.nodup_append]
    refine ⟨hnd, List.nodup_singleton _, fun x hx hx2 => ?_⟩
    have hxe : x = p.id := by simpa using hx2
    exact hpid (hxe ▸ hsub x hx)
  · intro x hx
    simp only [List.map_append, List.map_cons, List.map_nil, List.mem_append,
      List.mem_singleton] at hx
    rcases hx with hx | hx
    · exact List.mem_cons_of_mem _ (hsub x hx)
    · subst hx
      exact List.mem_cons_self _ _

lemma addUnseen_inv (st : MergeState) (p : Product) (h : MergeInv st) :
    MergeInv (addUnseen st p) := by
  unfold addUnseen
  split
  · exact h
  · next hcon =>
      exact push_inv st p h (by simpa using hcon)

lemma addUnseenLimited_inv (limit : ℕ) (st : MergeState) (p : Product) (h : MergeInv st) :
    MergeInv (addUnseenLimited limit st p) := by
  unfold addUnseenLimited
  split
  · next hcond =>
      have hpid : p.id ∉ st.seenIds := by
        have h2 := (Bool.and_eq_true _ _).mp hcond
        simpa using h2.1
      exact push_inv st p h hpid
  · exact h

lemma foldl_mergeInv {f : MergeState → Product → MergeState}
    (hf : ∀ st p, MergeInv st → MergeInv (f st p)) (l : List Product) (st : MergeState)
    (h : MergeInv st) : MergeInv (l.foldl f st) := by
  induction l generalizing st with
  | nil => exact h
  | cons p rest ih => exact ih _ (hf _ _ h)

/-- C9: whatever the three generator lists are — including lists that repeat a
product id internally — the merged list carries each product id at most once,
and so does the `recommendations` field of `getRecommendations` for a
logged-in user. -/
theorem merged_recommendation_ids_nodup :
    (∀ (collaborative contentBased trending : List Product) (limit : ℕ),
        ((mergeStrategies collaborative contentBased trending limit).map Product.id).Nodup) ∧
      ∀ (db : DB) (uid : String) (limit : ℕ),
        (((getRecommendations db (some uid) limit).recommendations).map Product.id).Nodup := by
  have hmerge : ∀ (c cb t : List Product) (limit : ℕ),
      ((mergeStrategies c cb t limit).map Product.id).Nodup := by
    intro c cb t limit
    have hinv : MergeInv (⟨[], []⟩ : MergeState) := ⟨List.nodup_nil, by simp⟩
    have h1 := foldl_mergeInv addUnseen_inv c _ hinv
    have h2 := foldl_mergeInv addUnseen_inv cb _ h1
    have h3 := foldl_mergeInv (addUnseenLimited_inv limit) t _ h2
    exact h3.1
  refine ⟨hmerge, fun db uid limit => ?_⟩
  have hrec : (getRecommendations db (some uid) limit).recommendations =
      (mergeStrategies (getCollaborativeRecommendations db uid (limit / 2))
        (getContentBasedRecommendations db uid (limit / 2))
        (getTrendingProducts db (limit / 3)) limit).take limit := rfl
  rw [hrec]
  have hfull := hmerge (getCollaborativeRecommendations db uid (limit / 2))
    (getContentBasedRecommendations db uid (limit / 2))
    (getTrendingProducts db (limit / 3)) limit
  exact ((List.take_sublist _ _).map Product.id).nodup hfull

lemma getTrendingProducts_length_le (db : DB) (limit : ℕ) :
    (getTrendingProducts db limit).length ≤ limit := by
  unfold getTrendingProducts
  rw [List.length_take]
  exact min_le_left _ _

/-- C6: with no userId the blender returns the trending list (length at most
`limit`) as `recommendations`, repeats it under `trending`, and the response
carries no `contentBased` or `collaborative` key (`none`). -/
theorem getRecommendations_anonymous (db : DB) (limit : ℕ) :
    getRecommendations db none limit =
      ⟨getTrendingProducts db limit, none, none, getTrendingProducts db limit⟩ ∧
      (getTrendingProducts db limit).length ≤ limit :=
  ⟨rfl, getTrendingProducts_length_le db limit⟩

lemma getContentBasedRecommendations_length_le (db : DB) (uid : String) (limit : ℕ) :
    (getContentBasedRecommendations db uid limit).length ≤ limit := by
  unfold getContentBasedRecommendations
  rcases hu : findUserById db uid with _ | user
  · simp
  · rcases hp : user.preferences with _ | prefs
    · simp [hp]
    · simp only [hp, List.length_map, List.length_take]
      exact min_le_left _ _

lemma getCollaborativeRecommendations_length_le (db : DB) (uid : String) (limit : ℕ) :
    (getCollaborativeRecommendations db uid limit).length ≤ limit := by
  unfold getCollaborativeRecommendations
  cases findUserById db uid with
  | none => simp
  | some user =>
      unfold productsInIds
      rw [List.length_take]
      exact min_le_left _ _

/-- C7: the blender always invokes content-based and collaborative with
`limit / 2` and trending with `limit / 3` (floor division on the integer
limit), surfaces the three raw lists unchanged in the response, and each raw
list length is bounded by its sub-limit. -/
theorem getRecommendations_sublimits (db : DB) (uid : String) (limit : ℕ) :
    (getRecommendations db (some uid) limit).contentBased =
        some (getContentBasedRecommendations db uid (limit / 2)) ∧
      (getRecommendations db (some uid) limit).collaborative =
        some (getCollaborativeRecommendations db uid (limit / 2)) ∧
      (getRecommendations db (some uid) limit).trending =
        getTrendingProducts db (limit / 3) ∧
      (getContentBasedRecommendations db uid (limit / 2)).length ≤ limit / 2 ∧
      (getCollaborativeRecommendations db uid (limit / 2)).length ≤ limit / 2 ∧
      (getTrendingProducts db (limit / 3)).length ≤ limit / 3 :=
  ⟨rfl, rfl, rfl, getContentBasedRecommendations_length_le db uid (limit / 2),
    getCollaborativeRecommendations_length_le db uid (limit / 2),
    getTrendingProducts_length_le db (limit / 3)⟩

lemma foldl_addCandidate_not_mem (userProductIds ids acc : List String)
    (hacc : ∀ x ∈ acc, x ∉ userProductIds) :
    ∀ x ∈ ids.foldl (addCandidate userProductIds) acc, x ∉ userProductIds := by
  induction ids generalizing acc with
  | nil => exact hacc
  | cons i rest ih =>
      simp only [List.foldl_cons]
      refine ih _ ?_
      intro x hx
      unfold addCandidate at hx
      split at hx
      · next hcond =>
          rcases List.mem_append.mp hx with hx2 | hx2
          · exact hacc x hx2
          · have hxe : x = i := by simpa using hx2
            subst hxe
            have h2 := (Bool.and_eq_true _ _).mp hcond
            simpa using h2.1
      · exact hacc x hx

lemma foldl_users_not_mem (userProductIds : List String) (users : List UserDoc)
    (acc : List String) (hacc : ∀ x ∈ acc, x ∉ userProductIds) :
    ∀ x ∈ users.foldl (fun acc2 su =>
        (su.viewHistory.map (fun item => item.productId) ++
          su.purchases.map (fun item => item.productId)).foldl
          (addCandidate userProductIds) acc2) acc, x ∉ userProductIds := by
  induction users generalizing acc with
  | nil => exact hacc
  | cons u rest ih =>
      simp only [List.foldl_cons]
      exact ih _ (foldl_addCandidate_not_mem _ _ _ hacc)

lemma mem_similarUserProductIdsOf (similarUsers : List UserDoc)
    (userProductIds : List String) (x : String)
    (hx : x ∈ similarUserProductIdsOf similarUsers userProductIds) :
    x ∉ userProductIds := by
  unfold similarUserProductIdsOf at hx
  exact foldl_users_not_mem userProductIds similarUsers [] (by simp) x hx

lemma getContentBasedRecommendations_eq (db : DB) (uid : String) (limit : ℕ)
    (user : UserDoc) (prefs : Preferences)
    (huser : findUserById db uid = some user) (hpref : user.preferences = some prefs) :
    getContentBasedRecommendations db uid limit =
      ((((productsNotInIds db (userProductIdsOf user)).map
          (fun p => (p, calculateSimilarityScore prefs p))).mergeSort
          (fun a b => decide (b.2 ≤ a.2))).take limit).map (fun item => item.1) := by
  unfold getContentBasedRecommendations
  simp only [huser, hpref]

lemma getCollaborativeRecommendations_eq (db : DB) (uid : String) (limit : ℕ)
    (user : UserDoc) (huser : findUserById db uid = some user) :
    getCollaborativeRecommendations db uid limit =
      productsInIds db (similarUserProductIdsOf
        (similarUsersOf db uid (userProductIdsOf user)) (userProductIdsOf user)) limit := by
  unfold getCollaborativeRecommendations
  rw [huser]

lemma mem_contentBased_not_excluded (db : DB) (uid : String) (limit : ℕ) (user : UserDoc)
    (huser : findUserById db uid = some user) (p : Product)
    (hp : p ∈ getContentBasedRecommendations db uid limit) :
    p.id ∉ userProductIdsOf user := by
  cases hpref : user.preferences with
  | none =>
      unfold getContentBasedRecommendations at hp
      simp only [huser, hpref] at hp
      simp at hp
  | some prefs =>
      rw [getContentBasedRecommendations_eq db uid limit user prefs huser hpref] at hp
      obtain ⟨pair, hpair, hfst⟩ := List.mem_map.mp hp
      have h1 : pair ∈ (productsNotInIds db (userProductIdsOf user)).map
          (fun q => (q, calculateSimilarityScore prefs q)) :=
        (List.mergeSort_perm _ _).subset (List.take_subset _ _ hpair)
      obtain ⟨q, hq, hpq⟩ := List.mem_map.mp h1
      have hqp : q = p := by rw [← hfst, ← hpq]
      subst hqp
      have h3 := (List.mem_filter.mp hq).2
      simpa using h3

/-- C5: a product id occurring in the user view or purchase history never
occurs in the content-based output (the `$nin` query removes it before any
scoring) nor in the collaborative output (`addCandidate` refuses it), whatever
its similarity score. -/
theorem history_ids_excluded (db : DB) (userId : String) (user : UserDoc) (limit : ℕ)
    (productId : String) (huser : findUserById db userId = some user)
    (hhist : productId ∈ userProductIdsOf user) :
    (∀ p ∈ getContentBasedRecommendations db userId limit, p.id ≠ productId) ∧
      (∀ p ∈ getCollaborativeRecommendations db userId limit, p.id ≠ productId) := by
  constructor
  · intro p hp he
    have hnmem := mem_contentBased_not_excluded db userId limit user huser p hp
    rw [he] at hnmem
    exact hnmem hhist
  · intro p hp he
    rw [getCollaborativeRecommendations_eq db userId limit user huser] at hp
    unfold productsInIds at hp
    have h3 := (List.mem_filter.mp (List.take_subset _ _ hp)).2
    have h4 : p.id ∈ similarUserProductIdsOf
        (similarUsersOf db userId (userProductIdsOf user)) (userProductIdsOf user) := by
      simpa using h3
    have h5 := mem_similarUserProductIdsOf _ _ _ h4
    rw [he] at h5
    exact h5 hhist

/-- Witness for C5: in the fixture store, user `u1` has viewed product `"1"`. -/
theorem history_ids_excluded_witness :
    (findUserById wDB "u1" = some wUser ∧ "1" ∈ userProductIdsOf wUser) ∧
      ((∀ p ∈ getContentBasedRecommendations wDB "u1" 5, p.id ≠ "1") ∧
        (∀ p ∈ getCollaborativeRecommendations wDB "u1" 5, p.id ≠ "1")) :=
  ⟨⟨by decide, by decide⟩,
    history_ids_excluded wDB "u1" wUser 5 "1" (by decide) (by decide)⟩

lemma updateUserById_split (users : List UserDoc) (userId : String) (user : UserDoc)
    (h : users.find? (fun u => u.id == userId) = some user) :
    ∃ pre post, users = pre ++ user :: post ∧ (∀ w ∈ pre, w.id ≠ userId) ∧
      ∀ f : UserDoc → UserDoc, updateUserById users userId f = pre ++ f user :: post := by
  induction users with
  | nil => simp at h
  | cons u rest ih =>
      cases hbeq : (u.id == userId) with
      | true =>
          have hue : u = user := by
            rw [List.find?_cons_of_pos (p := fun v : UserDoc => v.id == userId) _ hbeq] at h
            exact Option.some.inj h
          subst hue
          refine ⟨[], rest, by simp, by simp, fun f => ?_⟩
          simp [updateUserById, hbeq]
      | false =>
          have hne : u.id ≠ userId := by simpa using hbeq
          have hrest : rest.find? (fun v => v.id == userId) = some user := by
            rw [List.find?_cons_of_neg (p := fun v : UserDoc => v.id == userId) _
              (by simp [hbeq])] at h
            exact h
          obtain ⟨pre, post, hl, hpre, hupd⟩ := ih hrest
          refine ⟨u :: pre, post, by simp [hl], ?_, fun f => ?_⟩
          · intro w hw
            rcases List.mem_cons.mp hw with hw2 | hw2
            · subst hw2
              exact hne
            · exact hpre w hw2
          · simp [updateUserById, hbeq, hupd f]

/-- C10: recording a view rewrites exactly the first user document matching
`userId`, appending the single entry `{productId, viewedAt}` to its
`viewHistory`; every other user document, the product collection, and every
other field of the matched user (purchases, preferences, email, name) are
unchanged.  Recording a purchase behaves symmetrically on `purchases`. -/
theorem record_view_and_purchase_frame (db : DB) (userId productId : String) (now : ℕ)
    (user : UserDoc) (huser : findUserById db userId = some user) :
    (∃ pre post,
        db.users = pre ++ user :: post ∧ (∀ w ∈ pre, w.id ≠ userId) ∧
        (recordProductView db userId productId now).users =
          pre ++ pushView productId now user :: post ∧
        (recordProductPurchase db userId productId now).users =
          pre ++ pushPurchase productId now user :: post) ∧
      (recordProductView db userId productId now).products = db.products ∧
      (recordProductPurchase db userId productId now).products = db.products ∧
      (pushView productId now user).viewHistory = user.viewHistory ++ [⟨productId, now⟩] ∧
      (pushView productId now user).purchases = user.purchases ∧
      (pushView productId now user).preferences = user.preferences ∧
      (pushView productId now user).email = user.email ∧
      (pushView productId now user).name = user.name ∧
      (pushPurchase productId now user).purchases = user.purchases ++ [⟨productId, now⟩] ∧
      (pushPurchase productId now user).viewHistory = user.viewHistory ∧
      (pushPurchase productId now user).preferences = user.preferences ∧
      (pushPurchase productId now user).email = user.email ∧
      (pushPurchase productId now user).name = user.name := by
  obtain ⟨pre, post, hl, hpre, hupd⟩ := updateUserById_split db.users userId user huser
  exact ⟨⟨pre, post, hl, hpre, hupd (pushView productId now),
    hupd (pushPurchase productId now)⟩, rfl, rfl, rfl, rfl, rfl, rfl, rfl, rfl, rfl,
    rfl, rfl, rfl⟩

/-- Witness for C10 on the fixture store. -/
theorem record_view_and_purchase_frame_witness :
    findUserById wDB "u1" = some wUser ∧
      ((∃ pre post,
          wDB.users = pre ++ wUser :: post ∧ (∀ w ∈ pre, w.id ≠ "u1") ∧
          (recordProductView wDB "u1" "p9" 7).users =
            pre ++ pushView "p9" 7 wUser :: post ∧
          (recordProductPurchase wDB "u1" "p9" 7).users =
            pre ++ pushPurchase "p9" 7 wUser :: post) ∧
        (recordProductView wDB "u1" "p9" 7).products = wDB.products ∧
        (recordProductPurchase wDB "u1" "p9" 7).products = wDB.products ∧
        (pushView "p9" 7 wUser).viewHistory = wUser.viewHistory ++ [⟨"p9", 7⟩] ∧
        (pushView "p9" 7 wUser).purchases = wUser.purchases ∧
        (pushView "p9" 7 wUser).preferences = wUser.preferences ∧
        (pushView "p9" 7 wUser).email = wUser.email ∧
        (pushView "p9" 7 wUser).name = wUser.name ∧
        (pushPurchase "p9" 7 wUser).purchases = wUser.purchases ++ [⟨"p9", 7⟩] ∧
        (pushPurchase "p9" 7 wUser).viewHistory = wUser.viewHistory ∧
        (pushPurchase "p9" 7 wUser).preferences = wUser.preferences ∧
        (pushPurchase "p9" 7 wUser).email = wUser.email ∧
        (pushPurchase "p9" 7 wUser).name = wUser.name) :=
  ⟨by decide, record_view_and_purchase_frame wDB "u1" "p9" 7 wUser (by decide)⟩

lemma getCollaborativeRecommendationsE_fault (faults : StoreFaults) (db : DB)
    (userId : String) (limit : ℕ)
    (h : faults.userFindById = true ∨ faults.userFindSimilar = true ∨
      faults.productFindIn = true) :
    getCollaborativeRecommendationsE faults db userId limit = [] := by
  unfold getCollaborativeRecommendationsE collaborativeTry
  rcases h with h | h | h
  · simp [h]
  · cases hb : faults.userFindById
    · rcases hu : findUserById db userId with _ | user <;> simp [hb, h, hu]
    · simp [hb]
  · cases hb : faults.userFindById
    · rcases hu : findUserById db userId with _ | user
      · simp [hb, hu]
      · cases hs : faults.userFindSimilar <;> simp [hb, hu, hs, h]
    · simp [hb]

lemma getContentBasedRecommendationsE_fault (faults : StoreFaults) (db : DB)
    (userId : String) (limit : ℕ)
    (h : faults.userFindById = true ∨ faults.productFindNin = true) :
    getContentBasedRecommendationsE faults db userId limit = [] := by
  unfold getContentBasedRecommendationsE contentBasedTry
  rcases h with h | h
  · simp [h]
  · cases hb : faults.userFindById
    · rcases hu : findUserById db userId with _ | user
      · simp [hb, hu]
      · rcases hp : user.preferences with _ | prefs <;> simp [hb, hu, hp, h]
    · simp [hb]

lemma getTrendingProductsE_fault (faults : StoreFaults) (db : DB) (limit : ℕ)
    (h : faults.productFindSorted = true) :
    getTrendingProductsE faults db limit = [] := by
  unfold getTrendingProductsE trendingTry
  simp [h]

lemma getCollaborativeRecommendationsE_noFaults (db : DB) (userId : String) (limit : ℕ) :
    getCollaborativeRecommendationsE noFaults db userId limit =
      getCollaborativeRecommendations db userId limit := by
  unfold getCollaborativeRecommendationsE collaborativeTry getCollaborativeRecommendations
  rcases hu : findUserById db userId with _ | user <;> simp [noFaults, hu]

lemma getContentBasedRecommendationsE_noFaults (db : DB) (userId : String) (limit : ℕ) :
    getContentBasedRecommendationsE noFaults db userId limit =
      getContentBasedRecommendations db userId limit := by
  unfold getContentBasedRecommendationsE contentBasedTry getContentBasedRecommendations
  rcases hu : findUserById db userId with _ | user
  · simp [noFaults, hu]
  · rcases hp : user.preferences with _ | prefs <;> simp [noFaults, hu, hp]

lemma getTrendingProductsE_noFaults (db : DB) (limit : ℕ) :
    getTrendingProductsE noFaults db limit = getTrendingProducts db limit := by
  unfold getTrendingProductsE trendingTry
  simp [noFaults]

lemma getRecommendationsE_noFaults (db : DB) (userId : Option String) (limit : ℕ) :
    getRecommendationsE noFaults db userId limit = getRecommendations db userId limit := by
  have hb : noFaults.blendUnexpected = false := rfl
  unfold getRecommendationsE recommendationsTry getRecommendations
  rcases userId with _ | uid <;>
    simp [hb, getCollaborativeRecommendationsE_noFaults,
      getContentBasedRecommendationsE_noFaults, getTrendingProductsE_noFaults]

/-- C8: a store error raised inside any of the three generators is caught at
that generator boundary and becomes the empty list (the caught wrapper
returns a plain list, never an exception), and an unexpected error inside the
blend itself makes `getRecommendations` return the all-empty shape with all
four keys present.  A fault-free instrumented run coincides with the plain
model. -/
theorem generator_and_blend_errors_swallowed (faults : StoreFaults) (db : DB)
    (userId : String) (anyUserId : Option String) (limit : ℕ) :
    ((faults.userFindById = true ∨ faults.userFindSimilar = true ∨
        faults.productFindIn = true) →
      getCollaborativeRecommendationsE faults db userId limit = []) ∧
    ((faults.userFindById = true ∨ faults.productFindNin = true) →
      getContentBasedRecommendationsE faults db userId limit = []) ∧
    (faults.productFindSorted = true → getTrendingProductsE faults db limit = []) ∧
    (faults.blendUnexpected = true →
      getRecommendationsE faults db anyUserId limit = ⟨[], some [], some [], []⟩) ∧
    getRecommendationsE noFaults db anyUserId limit = getRecommendations db anyUserId limit := by
  refine ⟨getCollaborativeRecommendationsE_fault faults db userId limit,
    getContentBasedRecommendationsE_fault faults db userId limit,
    getTrendingProductsE_fault faults db limit, fun h => ?_,
    getRecommendationsE_noFaults db anyUserId limit⟩
  unfold getRecommendationsE recommendationsTry
  simp [h]

/-- Fixture fault set: the similar-users query of the collaborative generator
rejects. -/
def wFaultCollab : StoreFaults := ⟨false, true, false, false, false, false⟩

/-- Fixture fault set: an unexpected error inside the blend body. -/
def wFaultBlend : StoreFaults := ⟨false, false, false, false, false, true⟩

/-- Witness for C8: a failing collaborative query degrades to `[]`, and a
blend-level error yields the all-empty shape. -/
theorem generator_and_blend_errors_swallowed_witness :
    getCollaborativeRecommendationsE wFaultCollab wDB "u1" 5 = [] ∧
      getRecommendationsE wFaultBlend wDB (some "u1") 5 = ⟨[], some [], some [], []⟩ :=
  ⟨(generator_and_blend_errors_swallowed wFaultCollab wDB "u1" (some "u1") 5).1
      (Or.inr (Or.inl rfl)),
    (generator_and_blend_errors_swallowed wFaultBlend wDB "u1" (some "u1") 5).2.2.2.1 rfl⟩
